import Mathlib

/-!
Shallow embedding of `src/unstructured/partition/utils/ocr_models/gpt4o_ocr.py`
(class `OCRAgentGPT4O`) and proofs about the claims of its specification.

External collaborators (PIL image encoding/resizing pixel content, the OpenAI
chat-completion service, the process environment) are modelled as explicit
function parameters; the control flow, validation and conversion logic is
translated line by line from the Python source.
-/

namespace GPT4OOCR

/-- Parsed JSON values, the possible results of `json.loads` on the service
response content (string content that fails to parse raises an uncaught
`JSONDecodeError` in the source and is outside this model). -/
inductive Json where
  | null : Json
  | bool (b : Bool) : Json
  | num (n : Int) : Json
  | str (s : String) : Json
  | arr (xs : List Json) : Json
  | obj (kvs : List (String × Json)) : Json
deriving Repr

/-- `Json.isObj j` holds exactly when `j` is a JSON object, mirroring
Python `isinstance(x, dict)` on a parsed value. -/
def Json.isObj : Json → Bool
  | .obj _ => true
  | _ => false

/-- `unstructured_inference.inference.elements.Rectangle(x1, y1, x2, y2)`;
the source only ever builds it with the integer corner values
`(i, i, i + 1, i + 1)`, so natural-number coordinates suffice. -/
structure Rectangle where
  x1 : Nat
  y1 : Nat
  x2 : Nat
  y2 : Nat
deriving Repr, DecidableEq

/-- `unstructured.partition.utils.constants.Source`: provenance tags for OCR
output (only `OCR_GPT4O` is used by this backend; other engines own the
other tags). -/
inductive Source where
  | OCR_TESSERACT : Source
  | OCR_PADDLE : Source
  | OCR_GPT4O : Source
deriving Repr, DecidableEq

/-- `unstructured_inference.inference.elements.TextRegion` as constructed by
this backend: a bounding box, the text payload (the Python object placed in
the `text` field, here a parsed JSON value), and a provenance tag. -/
structure TextRegion where
  bbox : Rectangle
  text : Json
  source : Source
deriving Repr

/-- Python exceptions relevant to `get_layout_from_image`: the explicit
`ValueError`s it raises, and the `TypeError` that `enumerate` raises on a
non-iterable object (which is not caught by the source). -/
inductive PyErr where
  | valueError (msg : String) : PyErr
  | typeError (msg : String) : PyErr
deriving Repr, DecidableEq

/-- `unstructured.documents.elements.ElementType` (the members this backend
touches; the real enum has many more). -/
inductive ElementType where
  | UNCATEGORIZED_TEXT : ElementType
  | TEXT : ElementType
  | IMAGE : ElementType
deriving Repr, DecidableEq

/-- `unstructured_inference.inference.layoutelement.LayoutElement` as consumed
here: bbox, text, provenance tag and element-type category. -/
structure LayoutElement where
  bbox : Rectangle
  text : Json
  source : Source
  element_type : ElementType
deriving Repr

/-- Modelled from the spec: `build_layout_element` from
`unstructured.partition.pdf_image.inference_utils` is imported by the source
file but its definition is not in the supplied sources. The spec describes it
as "a `LayoutElement` builder expecting bbox, text, source tag, and
element-type enum" used in "a pure mapping step; no additional validation",
so it is modelled as the plain constructor of `LayoutElement`. -/
def build_layout_element (bbox : Rectangle) (text : Json) (source : Source)
    (element_type : ElementType) : LayoutElement :=
  ⟨bbox, text, source, element_type⟩

/-- A PIL image as this backend sees it: a width, a height, and an abstract
pixel payload (a seed standing for the bitmap content, which the source never
inspects directly). -/
structure Image where
  width : Nat
  height : Nat
  pixels : Nat
deriving Repr, DecidableEq

/-- The chat-completion request shape built by the source: model name, system
instruction, the base64 image payload of the single user message, temperature,
and (for structured extraction) the JSON response format and token ceiling.
The language hint `ocr_languages` appears nowhere in it. -/
structure ChatRequest where
  model : String
  systemPrompt : String
  imagePayload : String
  temperature : Nat
  responseFormatJson : Bool
  maxTokens : Option Nat
deriving Repr, DecidableEq

/-- The base64 payload size bound in bytes: the source tests
`len(encoded_image) / 1024 / 1024 > 20`, and since division of an integer
below 2^53 by a power of two is exact in IEEE double arithmetic this is
equivalent to `len(encoded_image) > 20 * 1024 * 1024`. -/
def SIZE_LIMIT : Nat := 20 * 1024 * 1024

/-- System prompt of `get_text_from_image` (source lines 51-52). -/
def textSystemPrompt : String :=
  "You are a helpful assistant that performs OCR tasks. Transcribe the following image only with the text that appears in the image."

/-- System prompt of `get_layout_from_image` (source line 101). -/
def layoutSystemPrompt : String :=
  "You are a helpful assistant tasked with performing OCR tasks. Please transcribe the text from the image provided into a list of paragraphs. Each paragraph should be a string in a JSON array. Ensure that the output is a valid JSON object with a key \x27paragraphs\x27 containing the array of transcribed text. The text can appear in any direction in the image."

/-- The request built by `get_text_from_image` (source lines 47-62):
`temperature=0.0`, no response format, no token ceiling. -/
def textRequest (payload : String) : ChatRequest :=
  { model := "gpt-4o", systemPrompt := textSystemPrompt, imagePayload := payload,
    temperature := 0, responseFormatJson := false, maxTokens := none }

/-- The request built by `get_layout_from_image` (source lines 96-113):
`temperature=0.0`, `response_format={"type": "json_object"}`, `max_tokens=4096`. -/
def layoutRequest (payload : String) : ChatRequest :=
  { model := "gpt-4o", systemPrompt := layoutSystemPrompt, imagePayload := payload,
    temperature := 0, responseFormatJson := true, maxTokens := some 4096 }

/-- Source lines 66-68: `"" if not response.choices[0].message.content else
response.choices[0].message.content`. The content is `none` when the service
returned null; Python `not` is also true on the empty string. -/
def get_text_from_image_content (content : Option String) : String :=
  match content with
  | none => ""
  | some s => if s = "" then "" else s

/-- Python iteration over the extracted sole value, as performed by
`enumerate(paragraph_list)` in the comprehension at source lines 137-144:
a list yields its elements, a string yields its characters (as one-character
strings), a dict yields its keys, and any other object raises a `TypeError`
(which the source does not catch). -/
def pyEnumerate : Json → Except PyErr (List Json)
  | .arr xs => .ok xs
  | .str s => .ok (s.toList.map (fun c => Json.str (String.singleton c)))
  | .obj kvs => .ok (kvs.map (fun kv => Json.str kv.1))
  | _ => .error (.typeError "argument of type is not iterable")

/-- Source lines 117-144: response-content validation and conversion of
`get_layout_from_image`. `content` is the parsed `choices[0].message.content`
(`none` for null or empty content, for which line 118 substitutes the Python
list `[]`). Line 121 checks `isinstance(paragraph_list, dict)`; line 124
checks `len(paragraph_list) > 1`; lines 127-132 extract
`list(paragraph_list.values())[0]` converting any exception to a `ValueError`;
lines 137-144 build one `TextRegion` per iterated element, with bbox
`Rectangle(x1=i, y1=i, x2=i+1, y2=i+1)` and `source=Source.OCR_GPT4O`. -/
def get_layout_from_image_content (content : Option Json) :
    Except PyErr (List TextRegion) :=
  let paragraph_list : Json :=
    match content with
    | none => Json.arr []
    | some j => j
  match paragraph_list with
  | Json.obj kvs =>
    if 1 < kvs.length then
      .error (.valueError "Expected a dictionary object with one key-value pair.")
    else
      match kvs.head? with
      | none =>
        .error (.valueError
          "Error while extracting the paragraph list from the response content.")
      | some kv =>
        match pyEnumerate kv.2 with
        | .error e => .error e
        | .ok items =>
          .ok (items.enum.map (fun p =>
            { bbox := ⟨p.1, p.1, p.1 + 1, p.1 + 1⟩,
              text := p.2,
              source := Source.OCR_GPT4O }))
  | _ =>
    .error (.valueError "Expected a dictionary object for the response content.")

/-- One pass of the loop body at source lines 87-91:
`image = image.resize((int(image.width * 0.75), int(image.height * 0.75)))`.
`int(w * 0.75)` equals `3 * w / 4` in natural-number (floor) division for all
widths below 2^51, where the IEEE double product is exact. The pixel content
of the resized image comes from PIL and is modelled by the parameter
`rd`, which is given the old image and the new dimensions. -/
def shrinkStep (rd : Image → Nat → Nat → Nat) (img : Image) : Image :=
  ⟨3 * img.width / 4, 3 * img.height / 4,
   rd img (3 * img.width / 4) (3 * img.height / 4)⟩

/-- The downscaling loop at source lines 84-91, parametrised by
`encLen : Image → Nat`, the byte length of the base64 PNG encoding of an
image (`len(base64.b64encode(PNG(image)).decode("utf-8"))`, an external
computation). The source loop has no iteration cap and can run forever, so
the model carries explicit `fuel`; `none` means the loop has not terminated
within `fuel` size checks. Each entry into the guard corresponds to one
encode step (the first one is the encode at source lines 80-82, each later
one the re-encode at lines 89-91). -/
def resizeLoop (encLen : Image → Nat) (rd : Image → Nat → Nat → Nat) :
    Nat → Image → Option Image
  | 0, _ => none
  | fuel + 1, img =>
    if SIZE_LIMIT < encLen img then
      resizeLoop encLen rd fuel (shrinkStep rd img)
    else
      some img

/-- `OCRAgentGPT4O.get_text_from_image` (source lines 40-68). The PNG+base64
encoding is the external parameter `b64`; `service` is the oracle for
`self.client.chat.completions.create`, returning the
`choices[0].message.content` field (`none` for null). The `ocr_languages`
argument is bound but never read. -/
def get_text_from_image (service : ChatRequest → Option String)
    (b64 : Image → String) (image : Image) (ocr_languages : String) : String :=
  get_text_from_image_content (service (textRequest (b64 image)))

/-- `OCRAgentGPT4O.get_layout_from_image` (source lines 75-144): encode,
downscale until the payload fits, issue one request, then validate and
convert the content. `service` returns the parsed JSON of
`choices[0].message.content` (`none` for null or empty content). The outer
`Option` is `none` exactly when the unbounded downscaling loop exceeds
`fuel` iterations. -/
def get_layout_from_image (service : ChatRequest → Option Json)
    (b64 : Image → String) (rd : Image → Nat → Nat → Nat) (fuel : Nat)
    (image : Image) (ocr_languages : String) :
    Option (Except PyErr (List TextRegion)) :=
  (resizeLoop (fun i => (b64 i).length) rd fuel image).map (fun img =>
    get_layout_from_image_content (service (layoutRequest (b64 img))))

/-- `OCRAgentGPT4O.get_layout_elements_from_image` (source lines 146-163):
call `get_layout_from_image` and map each region through
`build_layout_element` with `element_type=ElementType.UNCATEGORIZED_TEXT`. -/
def get_layout_elements_from_image (service : ChatRequest → Option Json)
    (b64 : Image → String) (rd : Image → Nat → Nat → Nat) (fuel : Nat)
    (image : Image) (ocr_languages : String) :
    Option (Except PyErr (List LayoutElement)) :=
  (get_layout_from_image service b64 rd fuel image ocr_languages).map (fun res =>
    res.map (fun ocr_regions =>
      ocr_regions.map (fun r =>
        build_layout_element r.bbox r.text r.source ElementType.UNCATEGORIZED_TEXT)))

/-- The constructed agent state: `self.model` and the client handle (which
holds only the API key; constructing the OpenAI client performs no network
call). -/
structure OCRAgentGPT4O where
  model : String
  clientApiKey : String
deriving Repr, DecidableEq

/-- `OCRAgentGPT4O.__init__` (source lines 30-35). `env` is `os.environ`.
The `assert` requires `"OPENAI_API_KEY" in os.environ` and a non-empty value
before the client is built; its failure is modelled as `Except.error` with
the assertion message. The definition takes no service oracle: construction
cannot perform a network call. -/
def OCRAgentGPT4O_init (env : String → Option String) :
    Except String OCRAgentGPT4O :=
  match env "OPENAI_API_KEY" with
  | none =>
    .error "Please set the OPENAI_API_KEY environment variable to use the OpenAI API."
  | some key =>
    if key = "" then
      .error "Please set the OPENAI_API_KEY environment variable to use the OpenAI API."
    else
      .ok { model := "gpt-4o", clientApiKey := key }

/-- A heap of PIL images, for stating that the caller's image object is never
mutated: references are indices into the allocation list. -/
structure Heap where
  imgs : List Image
deriving Repr, DecidableEq

/-- Dereference an image handle. -/
def Heap.get (h : Heap) (r : Nat) : Option Image :=
  h.imgs[r]?

/-- `image.resize(...)` allocates a fresh image object and returns a handle
to it; nothing already on the heap changes. -/
def Heap.alloc (h : Heap) (img : Image) : Heap × Nat :=
  (⟨h.imgs ++ [img]⟩, h.imgs.length)

/-- The downscaling loop at source lines 84-91 replayed on the image heap:
the local variable `image` is a handle, and the assignment
`image = image.resize(...)` allocates the resized copy and rebinds the
handle; the object the caller passed in is never written. -/
def resizeLoopH (encLen : Image → Nat) (rd : Image → Nat → Nat → Nat) :
    Nat → Heap → Nat → Option (Heap × Nat)
  | 0, _, _ => none
  | fuel + 1, h, r =>
    match h.get r with
    | none => none
    | some img =>
      if SIZE_LIMIT < encLen img then
        let alloced := h.alloc (shrinkStep rd img)
        resizeLoopH encLen rd fuel alloced.1 alloced.2
      else
        some (h, r)

/-! ## Helper lemmas -/

/-- Successful runs of the heap-replayed downscaling loop only ever append
freshly allocated images to the heap. -/
theorem resizeLoopH_extends (encLen : Image → Nat) (rd : Image → Nat → Nat → Nat) :
    ∀ (fuel : Nat) (h : Heap) (r : Nat) (hr : Heap × Nat),
      resizeLoopH encLen rd fuel h r = some hr →
      ∃ t : List Image, hr.1.imgs = h.imgs ++ t := by
  intro fuel
  induction fuel with
  | zero => intro h r hr hrun; simp [resizeLoopH] at hrun
  | succ n ih =>
    intro h r hr hrun
    unfold resizeLoopH at hrun
    cases hget : h.get r with
    | none => rw [hget] at hrun; simp at hrun
    | some img =>
      rw [hget] at hrun
      dsimp only at hrun
      by_cases hsz : SIZE_LIMIT < encLen img
      · rw [if_pos hsz] at hrun
        obtain ⟨t, ht⟩ := ih _ _ _ hrun
        exact ⟨shrinkStep rd img :: t, by
          simpa [Heap.alloc, List.append_assoc] using ht⟩
      · rw [if_neg hsz] at hrun
        obtain rfl : (h, r) = hr := Option.some.inj hrun
        exact ⟨[], by simp⟩

/-! ## Claims -/

/-- C1: the claim says that for null/empty service content,
`get_text_from_image` returns `""` and `get_layout_from_image` returns an
empty list with no error. The first half holds, but in
`get_layout_from_image` the `[] if not content` branch (line 118) feeds the
Python list `[]` straight into the `isinstance(..., dict)` check (line 121),
which fails, so the call raises
`ValueError("Expected a dictionary object for the response content.")`
instead of returning an empty list: the empty-content branch can never
produce a successful result. This theorem evaluates the code at the failing
input. -/
theorem claim_C1_failing_eval :
    get_text_from_image_content none = "" ∧
    get_text_from_image_content (some "") = "" ∧
    get_layout_from_image_content none =
      .error (.valueError "Expected a dictionary object for the response content.") ∧
    get_layout_from_image_content (some (Json.str "")) =
      .error (.valueError "Expected a dictionary object for the response content.") :=
  ⟨rfl, rfl, rfl, rfl⟩

/-- C2 counterexample: the claim says a one-key object whose sole value is a
string raises a `ValueError` rather than returning a result. In the source,
`list(paragraph_list.values())[0]` succeeds on such an object, and the final
comprehension then calls `enumerate` on the string, iterating its characters:
for `{"paragraphs": "ab"}` the call returns two per-character regions and
raises nothing. -/
theorem claim_C2_counterexample :
    get_layout_from_image_content
      (some (Json.obj [("paragraphs", Json.str "ab")])) =
    .ok [⟨⟨0, 0, 1, 1⟩, Json.str "a", Source.OCR_GPT4O⟩,
         ⟨⟨1, 1, 2, 2⟩, Json.str "b", Source.OCR_GPT4O⟩] := rfl

/-- C2 amended: for every one-key object whose sole value is a string,
`get_layout_from_image` does not raise; it iterates the characters of the
string and returns one Text Region per character, in order, with the usual
positional unit-square bboxes and the `OCR_GPT4O` provenance tag. -/
theorem claim_C2_amended (key s : String) :
    get_layout_from_image_content (some (Json.obj [(key, Json.str s)])) =
      .ok ((s.toList.map (fun c => Json.str (String.singleton c))).enum.map
        (fun p => ⟨⟨p.1, p.1, p.1 + 1, p.1 + 1⟩, p.2, Source.OCR_GPT4O⟩)) ∧
    ((s.toList.map (fun c => Json.str (String.singleton c))).enum.map
        (fun p : Nat × Json =>
          (⟨⟨p.1, p.1, p.1 + 1, p.1 + 1⟩, p.2, Source.OCR_GPT4O⟩ : TextRegion))).length
      = s.length := by
  constructor
  · rfl
  · simp only [List.length_map, List.enum_length]
    rfl

/-- C3: a response content that parses to an object with more than one key
(keys are distinct in any `json.loads` result) raises the one-key-pair
`ValueError` and produces no partial result, and any content parsing to a
non-object JSON value raises the dictionary-shape `ValueError`. -/
theorem claim_C3 :
    (∀ kvs : List (String × Json), (kvs.map Prod.fst).Nodup → 1 < kvs.length →
      get_layout_from_image_content (some (Json.obj kvs)) =
        .error (.valueError "Expected a dictionary object with one key-value pair.")) ∧
    (∀ j : Json, j.isObj = false →
      get_layout_from_image_content (some j) =
        .error (.valueError "Expected a dictionary object for the response content.")) := by
  constructor
  · intro kvs _ hlen
    simp [get_layout_from_image_content, hlen]
  · intro j hj
    cases j <;> simp_all [get_layout_from_image_content, Json.isObj]

/-- Witness for C3 at concrete inputs: a two-key object and a JSON array. -/
theorem claim_C3_witness :
    get_layout_from_image_content
      (some (Json.obj [("a", Json.null), ("b", Json.null)])) =
      .error (.valueError "Expected a dictionary object with one key-value pair.") ∧
    get_layout_from_image_content (some (Json.arr [Json.str "a"])) =
      .error (.valueError "Expected a dictionary object for the response content.") :=
  ⟨claim_C3.1 [("a", Json.null), ("b", Json.null)] (by decide) (by decide),
   claim_C3.2 (Json.arr [Json.str "a"]) (by decide)⟩

/-- C10: for an empty JSON object, `list(paragraph_list.values())[0]` raises
an `IndexError`, which the `except` clause converts into the extraction
`ValueError`; no empty list is returned. -/
theorem claim_C10 :
    get_layout_from_image_content (some (Json.obj [])) =
      .error (.valueError
        "Error while extracting the paragraph list from the response content.") := rfl

/-- C5: a one-key object whose value is the list `["a", "b"]` yields exactly
the two regions with texts `"a"` then `"b"`; in general a one-key object
whose value is a list of `n` elements yields `n` regions in response order,
the `i`-th carrying bbox `(i, i, i+1, i+1)` and provenance `OCR_GPT4O`. -/
theorem claim_C5 :
    (get_layout_from_image_content
        (some (Json.obj [("paragraphs", Json.arr [Json.str "a", Json.str "b"])])) =
      .ok [⟨⟨0, 0, 1, 1⟩, Json.str "a", Source.OCR_GPT4O⟩,
           ⟨⟨1, 1, 2, 2⟩, Json.str "b", Source.OCR_GPT4O⟩]) ∧
    (∀ (key : String) (ps : List Json),
      get_layout_from_image_content (some (Json.obj [(key, Json.arr ps)])) =
        .ok (ps.enum.map (fun p =>
          ⟨⟨p.1, p.1, p.1 + 1, p.1 + 1⟩, p.2, Source.OCR_GPT4O⟩))) ∧
    (∀ ps : List Json,
      (ps.enum.map (fun p : Nat × Json =>
        (⟨⟨p.1, p.1, p.1 + 1, p.1 + 1⟩, p.2, Source.OCR_GPT4O⟩ : TextRegion))).length
        = ps.length) := by
  refine ⟨rfl, fun key ps => rfl, fun ps => by simp⟩

/-- C4: the downscaling loop of `get_layout_from_image`. (1) When the encoded
payload already fits the 20 MiB bound, the loop body never runs: a single
size check (the one encode step) returns the image unchanged. (2) When above
the bound, each iteration replaces the dimensions by `int(0.75 * d)`
(`3 * d / 4`), strictly reducing width and height of any image with positive
dimensions. (3) Whenever the loop terminates, its result is the first iterate
of the shrink step whose encoding fits the bound: all earlier iterates were
strictly above it. (4) The loop has no iteration cap: there is an encoding
oracle under which it never terminates, however much fuel it is given. -/
theorem claim_C4 :
    (∀ (encLen : Image → Nat) (rd : Image → Nat → Nat → Nat) (fuel : Nat)
        (img : Image),
      encLen img ≤ SIZE_LIMIT → resizeLoop encLen rd (fuel + 1) img = some img) ∧
    (∀ (rd : Image → Nat → Nat → Nat) (img : Image),
      1 ≤ img.width → 1 ≤ img.height →
      (shrinkStep rd img).width = 3 * img.width / 4 ∧
      (shrinkStep rd img).height = 3 * img.height / 4 ∧
      (shrinkStep rd img).width < img.width ∧
      (shrinkStep rd img).height < img.height) ∧
    (∀ (encLen : Image → Nat) (rd : Image → Nat → Nat → Nat) (fuel : Nat)
        (img res : Image),
      resizeLoop encLen rd fuel img = some res →
      encLen res ≤ SIZE_LIMIT ∧
      ∃ k, k < fuel ∧ res = (shrinkStep rd)^[k] img ∧
        ∀ j, j < k → SIZE_LIMIT < encLen ((shrinkStep rd)^[j] img)) ∧
    (∃ (encLen : Image → Nat) (rd : Image → Nat → Nat → Nat) (img : Image),
      ∀ fuel, resizeLoop encLen rd fuel img = none) := by
  refine ⟨?_, ?_, ?_, ?_⟩
  · intro encLen rd fuel img hfit
    unfold resizeLoop
    rw [if_neg (not_lt.mpr hfit)]
  · intro rd img hw hh
    refine ⟨rfl, rfl, ?_, ?_⟩ <;> simp only [shrinkStep] <;> omega
  · intro encLen rd fuel
    induction fuel with
    | zero => intro img res hrun; simp [resizeLoop] at hrun
    | succ n ih =>
      intro img res hrun
      unfold resizeLoop at hrun
      by_cases hsz : SIZE_LIMIT < encLen img
      · rw [if_pos hsz] at hrun
        obtain ⟨henc, k, hk, hres, hall⟩ := ih (shrinkStep rd img) res hrun
        refine ⟨henc, k + 1, by omega, ?_, ?_⟩
        · rw [Function.iterate_succ_apply]
          exact hres
        · intro j hj
          match j with
          | 0 => simpa using hsz
          | j + 1 =>
            rw [Function.iterate_succ_apply]
            exact hall j (by omega)
      · rw [if_neg hsz] at hrun
        obtain rfl : img = res := Option.some.inj hrun
        exact ⟨not_lt.mp hsz, 0, by omega, by simp, fun j hj => by omega⟩
  · refine ⟨fun _ => SIZE_LIMIT + 1, fun _ _ _ => 0, ⟨1, 1, 0⟩, ?_⟩
    have hall : ∀ (fuel : Nat) (img : Image),
        resizeLoop (fun _ => SIZE_LIMIT + 1) (fun _ _ _ => 0) fuel img = none := by
      intro fuel
      induction fuel with
      | zero => intro img; rfl
      | succ n ih =>
        intro img
        unfold resizeLoop
        rw [if_pos (by omega)]
        exact ih _
    exact fun fuel => hall fuel _

/-- Witness for C4 at concrete inputs: a fitting image passes through
unchanged (parts 1 and 3), and the shrink step strictly reduces the width of
a 4-by-4 image (part 2). -/
theorem claim_C4_witness :
    resizeLoop (fun _ => 0) (fun _ _ _ => 0) 1 ⟨4, 4, 7⟩ = some ⟨4, 4, 7⟩ ∧
    (shrinkStep (fun _ _ _ => 0) ⟨4, 4, 7⟩).width < 4 ∧
    (0 : Nat) ≤ SIZE_LIMIT :=
  ⟨claim_C4.1 (fun _ => 0) (fun _ _ _ => 0) 0 ⟨4, 4, 7⟩ (by decide),
   (claim_C4.2.1 (fun _ _ _ => 0) ⟨4, 4, 7⟩ (by decide) (by decide)).2.2.1,
   (claim_C4.2.2.1 (fun _ => 0) (fun _ _ _ => 0) 1 ⟨4, 4, 7⟩ ⟨4, 4, 7⟩ (by rfl)).1⟩

/-- C6: whenever `get_layout_from_image` returns regions,
`get_layout_elements_from_image` returns exactly one element per region, in
the same order, built by `build_layout_element` with
`ElementType.UNCATEGORIZED_TEXT` and the region's own bbox, text and source;
no further validation is applied. -/
theorem claim_C6 (service : ChatRequest → Option Json) (b64 : Image → String)
    (rd : Image → Nat → Nat → Nat) (fuel : Nat) (image : Image)
    (ocr_languages : String) (rs : List TextRegion)
    (h : get_layout_from_image service b64 rd fuel image ocr_languages =
      some (.ok rs)) :
    get_layout_elements_from_image service b64 rd fuel image ocr_languages =
      some (.ok (rs.map (fun r =>
        build_layout_element r.bbox r.text r.source
          ElementType.UNCATEGORIZED_TEXT))) ∧
    (rs.map (fun r =>
      build_layout_element r.bbox r.text r.source
        ElementType.UNCATEGORIZED_TEXT)).length = rs.length := by
  constructor
  · unfold get_layout_elements_from_image
    rw [h]
    rfl
  · simp

/-- Witness for C6: a service answering a one-key object with an empty
paragraph list yields the empty element list. -/
theorem claim_C6_witness :
    get_layout_elements_from_image
      (fun _ => some (Json.obj [("k", Json.arr [])]))
      (fun _ => "") (fun _ _ _ => 0) 1 ⟨1, 1, 0⟩ "eng" = some (.ok []) ∧
    ([] : List LayoutElement).length = ([] : List TextRegion).length :=
  claim_C6 (fun _ => some (Json.obj [("k", Json.arr [])]))
    (fun _ => "") (fun _ _ _ => 0) 1 ⟨1, 1, 0⟩ "eng" [] (by rfl)

/-- C7: constructing the agent with the `OPENAI_API_KEY` environment variable
unset or empty fails with the assertion message; the constructor takes no
service oracle, so no network call can be involved. Conversely, any
successfully constructed agent holds a non-empty key taken from the
environment. -/
theorem claim_C7 :
    (∀ env : String → Option String,
      env "OPENAI_API_KEY" = none ∨ env "OPENAI_API_KEY" = some "" →
      OCRAgentGPT4O_init env = .error
        "Please set the OPENAI_API_KEY environment variable to use the OpenAI API.") ∧
    (∀ (env : String → Option String) (agent : OCRAgentGPT4O),
      OCRAgentGPT4O_init env = .ok agent →
      ∃ key, env "OPENAI_API_KEY" = some key ∧ key ≠ "" ∧
        agent = { model := "gpt-4o", clientApiKey := key }) := by
  constructor
  · rintro env (h | h) <;> simp [OCRAgentGPT4O_init, h]
  · intro env agent h
    unfold OCRAgentGPT4O_init at h
    cases henv : env "OPENAI_API_KEY" with
    | none =>
      rw [henv] at h
      simp at h
    | some key =>
      rw [henv] at h
      dsimp only at h
      by_cases hk : key = ""
      · rw [if_pos hk] at h
        simp at h
      · rw [if_neg hk] at h
        exact ⟨key, rfl, hk, (Except.ok.inj h).symm⟩

/-- Witness for C7: an empty environment and an environment carrying the
empty string both make construction fail. -/
theorem claim_C7_witness :
    OCRAgentGPT4O_init (fun _ => none) = .error
      "Please set the OPENAI_API_KEY environment variable to use the OpenAI API." ∧
    OCRAgentGPT4O_init (fun _ => some "") = .error
      "Please set the OPENAI_API_KEY environment variable to use the OpenAI API." :=
  ⟨claim_C7.1 (fun _ => none) (Or.inl rfl),
   claim_C7.1 (fun _ => some "") (Or.inr rfl)⟩

/-- C8: the `ocr_languages` argument is bound but never read by any of the
three extraction operations; with the same image, encoders and service
behaviour, any two language hints give identical results. -/
theorem claim_C8 (serviceText : ChatRequest → Option String)
    (serviceLayout : ChatRequest → Option Json) (b64 : Image → String)
    (rd : Image → Nat → Nat → Nat) (fuel : Nat) (image : Image)
    (lang1 lang2 : String) :
    get_text_from_image serviceText b64 image lang1 =
      get_text_from_image serviceText b64 image lang2 ∧
    get_layout_from_image serviceLayout b64 rd fuel image lang1 =
      get_layout_from_image serviceLayout b64 rd fuel image lang2 ∧
    get_layout_elements_from_image serviceLayout b64 rd fuel image lang1 =
      get_layout_elements_from_image serviceLayout b64 rd fuel image lang2 :=
  ⟨rfl, rfl, rfl⟩

/-- C9: the downscaling loop never mutates the caller's image object:
`image.resize(...)` allocates a fresh object and the local name is rebound
to it, so after any terminating run every image that existed on the heap
before the call — in particular the caller's — dereferences to exactly the
same width, height and pixel data as before. -/
theorem claim_C9 (encLen : Image → Nat) (rd : Image → Nat → Nat → Nat)
    (fuel : Nat) (h : Heap) (r : Nat) (hr : Heap × Nat)
    (hrun : resizeLoopH encLen rd fuel h r = some hr) :
    ∀ j, j < h.imgs.length → hr.1.get j = h.get j := by
  obtain ⟨t, ht⟩ := resizeLoopH_extends encLen rd fuel h r hr hrun
  intro j hj
  simp only [Heap.get, ht]
  exact List.getElem?_append_left hj

/-- Witness for C9: a run that resizes once (the oracle reports the original
4-by-4 image as oversized and the resized 3-by-3 copy as fitting) leaves the
caller's image, slot 0 of the heap, dereferencing to its original value. -/
theorem claim_C9_witness :
    Heap.get ⟨[⟨4, 4, 7⟩, ⟨3, 3, 9⟩]⟩ 0 = Heap.get ⟨[⟨4, 4, 7⟩]⟩ 0 :=
  claim_C9 (fun i => if i.pixels = 7 then SIZE_LIMIT + 1 else 0)
    (fun _ _ _ => 9) 2 ⟨[⟨4, 4, 7⟩]⟩ 0 (⟨[⟨4, 4, 7⟩, ⟨3, 3, 9⟩]⟩, 1)
    (by rfl) 0 (by decide)

end GPT4OOCR
